import Mathlib

/-!
Verification of the Fantasy-Football-Helper roster normalization and
heuristics layer.  The definitions below are a shallow embedding of the
server route helpers (`processRoster`, `getCurrentNFLWeek`, the waiver-wire
and trade-suggestion scoring) and of the client win-probability block.

Modelling conventions:
* JavaScript numbers that hold fantasy point values are modelled as `ℚ`.
* Absent / `undefined` / `null` fields are modelled as `Option` fields;
  the `??` operator is `jsOr`, and JS truthiness of strings and numbers is
  `strTruthy` / `numTruthy` (empty string and `0` are falsy).
* A `projectedPointBreakdown` object is modelled by its `usesPoints` flag
  truthiness plus its key/value entries, where a non-numeric value is
  `none` (it contributes 0 to the sum, as in the source's `typeof` check).
-/

/-- JavaScript `a ?? b` on two optional values. -/
def jsOr {α : Type} : Option α → Option α → Option α
  | some a, _ => some a
  | none, b => b

/-- JS truthiness of an optional string: absent and `""` are falsy. -/
def strTruthy : Option String → Bool
  | none => false
  | some s => decide (s ≠ "")

/-- JS truthiness of an optional number: absent and `0` are falsy. -/
def numTruthy : Option Int → Bool
  | none => false
  | some n => decide (n ≠ 0)

/-- JS `String.prototype.includes`: substring test. -/
def strIncludes (s sub : String) : Bool :=
  s.data.tails.any (fun t => sub.data.isPrefixOf t)

/-- A `projectedPointBreakdown` object: the truthiness of its `usesPoints`
flag, and its key/value entries (`none` marks a non-numeric value). -/
structure Breakdown where
  usesPoints : Bool
  entries : List (String × Option ℚ)
deriving DecidableEq

/-- The fields the normalizer reads from a resolved player object (also
present flattened on a teams-endpoint entry). -/
structure PlayerObj where
  fullName : Option String := none
  firstName : Option String := none
  lastName : Option String := none
  proTeamId : Option Int := none
  proTeam : Option Int := none
  opponentProTeamId : Option Int := none
  defaultPosition : Option String := none
  eligiblePositions : Option (List String) := none
  id : Option Int := none
  totalPoints : Option ℚ := none
  projectedPointBreakdown : Option Breakdown := none
  projectedPoints : Option ℚ := none
deriving DecidableEq

/-- One raw ESPN roster entry.  The teams-endpoint shape flattens the
player fields onto the entry itself, which the `extends` models: those
fields are literally the entry's own.  `playerPoolEntryPlayer` models
`entry.playerPoolEntry?.player`. -/
structure RawEntry extends PlayerObj where
  rosteredPosition : Option String := none
  playerPoolEntryPlayer : Option PlayerObj := none
  player : Option PlayerObj := none
  lineupSlotId : Option Int := none
  slot : Option Int := none
  points : Option ℚ := none
  appliedStatTotal : Option ℚ := none
deriving DecidableEq

/-- NFL team abbreviation mapping (`NFL_TEAM_NAMES` in the source). -/
def NFL_TEAM_NAMES : Int → Option String
  | 1 => some "ATL" | 2 => some "BUF" | 3 => some "CHI" | 4 => some "CIN"
  | 5 => some "CLE" | 6 => some "DAL" | 7 => some "DEN" | 8 => some "DET"
  | 9 => some "GB" | 10 => some "TEN" | 11 => some "IND" | 12 => some "KC"
  | 13 => some "LV" | 14 => some "LAR" | 15 => some "MIA" | 16 => some "MIN"
  | 17 => some "NE" | 18 => some "NO" | 19 => some "NYG" | 20 => some "NYJ"
  | 21 => some "PHI" | 22 => some "ARI" | 23 => some "PIT" | 24 => some "LAC"
  | 25 => some "SF" | 26 => some "SEA" | 27 => some "TB" | 28 => some "WSH"
  | 29 => some "CAR" | 30 => some "JAX" | 33 => some "BAL" | 34 => some "HOU"
  | _ => none

/-- `posMap` inside `processRoster`: rostered-position label to slot id. -/
def posMap : String → Option Int
  | "QB" => some 0 | "RB" => some 2 | "WR" => some 4 | "TE" => some 6
  | "FLEX" => some 23 | "D/ST" => some 16 | "K" => some 17
  | "Bench" => some 20 | "BE" => some 20 | "IR" => some 21
  | _ => none

/-- Lines 42-67 of the route helper: locate the player object and the
lineup slot id (default bench = 20). -/
def resolvePlayerAndSlot (e : RawEntry) : Option PlayerObj × Int :=
  if strTruthy e.fullName || strTruthy e.firstName || strTruthy e.lastName then
    (some e.toPlayerObj,
      if strTruthy e.rosteredPosition then (posMap (e.rosteredPosition.getD "")).getD 20
      else 20)
  else if e.playerPoolEntryPlayer.isSome then
    (e.playerPoolEntryPlayer, e.lineupSlotId.getD 20)
  else if e.player.isSome then
    (e.player, (jsOr e.lineupSlotId e.slot).getD 20)
  else
    (none, 20)

/-- `NFL_TEAM_NAMES[id]` on an optional id. -/
def lookupTeam : Option Int → Option String
  | none => none
  | some n => NFL_TEAM_NAMES n

/-- `player?.proTeamId ?? player?.proTeam ?? null`. -/
def nflTeamIdOf : Option PlayerObj → Option Int
  | none => none
  | some p => jsOr p.proTeamId p.proTeam

/-- `player?.opponentProTeamId ?? null`. -/
def opponentIdOf : Option PlayerObj → Option Int
  | none => none
  | some p => p.opponentProTeamId

/-- Lines 73-87: the display-name fallback chain. -/
def resolveName (player? : Option PlayerObj) (slot : Int) (teamId : Option Int) : String :=
  match player? with
  | none => "Empty Slot"
  | some p =>
    if strTruthy p.fullName then p.fullName.getD ""
    else if strTruthy p.firstName && strTruthy p.lastName then
      p.firstName.getD "" ++ " " ++ p.lastName.getD ""
    else if decide (slot = 16) && numTruthy teamId && (lookupTeam teamId).isSome then
      (lookupTeam teamId).getD "" ++ " D/ST"
    else if strTruthy p.lastName then p.lastName.getD ""
    else if numTruthy teamId && (lookupTeam teamId).isSome then
      (lookupTeam teamId).getD "" ++ " D/ST"
    else "Empty Slot"

/-- Standard positions accepted from a `defaultPosition` label. -/
def standardPositions : List String := ["QB", "RB", "WR", "TE", "K"]

/-- Positions accepted from an `eligiblePositions` array. -/
def eligibleFilter : List String := ["QB", "RB", "WR", "TE", "K", "D/ST", "DEF"]

/-- Every value the position resolution can produce (the fallback is
`N/A`). -/
def allowedPositions : List String := ["QB", "RB", "WR", "TE", "K", "D/ST", "N/A"]

/-- Lines 93-107: position from the `defaultPosition` label — first
standard position among the `/`-separated parts, else `D/ST` when the
label contains it. -/
def positionFromDefault : Option PlayerObj → Option String
  | none => none
  | some p =>
    if strTruthy p.defaultPosition then
      match ((p.defaultPosition.getD "").splitOn "/").find?
          (fun pos => decide (pos ∈ standardPositions)) with
      | some pos => some pos
      | none =>
        if strIncludes (p.defaultPosition.getD "") "D/ST" then some "D/ST" else none
    else none

/-- Lines 109-117: position from the `eligiblePositions` array, mapping
`DEF` to `D/ST`. -/
def positionFromEligible : Option PlayerObj → Option String
  | none => none
  | some p =>
    match p.eligiblePositions with
    | none => none
    | some l =>
      match l.find? (fun pos => decide (pos ∈ eligibleFilter)) with
      | some pos => some (if pos == "DEF" then "D/ST" else pos)
      | none => none

/-- Lines 119-127: position inferred from a dedicated position slot. -/
def positionFromSlot (slot : Int) : Option String :=
  if slot < 20 then
    if slot = 0 then some "QB"
    else if slot = 2 then some "RB"
    else if slot = 4 then some "WR"
    else if slot = 6 then some "TE"
    else if slot = 16 then some "D/ST"
    else if slot = 17 then some "K"
    else none
  else none

/-- Lines 89-127: the real-position fallback chain (default label, then
eligible positions, then inference from a dedicated position slot,
else `N/A`). -/
def resolvePosition (player? : Option PlayerObj) (slot : Int) : String :=
  (jsOr (positionFromDefault player?)
    (jsOr (positionFromEligible player?) (positionFromSlot slot))).getD "N/A"

/-- Sum of a breakdown's entries excluding the `usesPoints` key; a
non-numeric value contributes 0. -/
def sumBreakdown (b : Breakdown) : ℚ :=
  (b.entries.filter (fun kv => decide (kv.1 ≠ "usesPoints"))).foldl
    (fun s kv => s + kv.2.getD 0) 0

/-- Truthiness of `breakdown?.usesPoints`. -/
def bdUses : Option Breakdown → Bool
  | none => false
  | some b => b.usesPoints

/-- Lines 129-134: `entry.totalPoints ?? entry.points ??
entry.appliedStatTotal ?? player?.totalPoints ?? 0` (the final
`parseFloat(x) || 0` is the identity on an already-numeric value). -/
def resolveTotalPoints (e : RawEntry) (player? : Option PlayerObj) : ℚ :=
  (jsOr e.totalPoints (jsOr e.points (jsOr e.appliedStatTotal
    (player?.bind PlayerObj.totalPoints)))).getD 0

/-- Lines 136-166: projected points — a breakdown whose `usesPoints` flag
is truthy is summed (player level first, then entry, then nested player);
otherwise the direct `projectedPoints` fallback chain applies. -/
def resolveProjectedPoints (e : RawEntry) (player? : Option PlayerObj) : ℚ :=
  if bdUses (player?.bind PlayerObj.projectedPointBreakdown) then
    sumBreakdown ((player?.bind PlayerObj.projectedPointBreakdown).getD ⟨false, []⟩)
  else if bdUses e.projectedPointBreakdown then
    sumBreakdown (e.projectedPointBreakdown.getD ⟨false, []⟩)
  else if bdUses (e.playerPoolEntryPlayer.bind PlayerObj.projectedPointBreakdown) then
    sumBreakdown ((e.playerPoolEntryPlayer.bind PlayerObj.projectedPointBreakdown).getD ⟨false, []⟩)
  else
    (jsOr e.projectedPoints (jsOr (player?.bind PlayerObj.projectedPoints)
      (e.playerPoolEntryPlayer.bind PlayerObj.projectedPoints))).getD 0

/-- The canonical record produced for every roster entry. -/
structure NormalizedPlayer where
  playerId : Option Int
  playerName : String
  position : String
  lineupSlotId : Int
  isStarter : Bool
  nflTeam : String
  opponent : Option String
  totalPoints : ℚ
  projectedPoints : ℚ
  slotCategoryId : Int
deriving DecidableEq

/-- The per-entry body of `processRoster` (lines 40-182). -/
def normalizeEntry (e : RawEntry) : NormalizedPlayer :=
  let pr := resolvePlayerAndSlot e
  let player := pr.1
  let lineupSlotId := pr.2
  let nflTeamId := nflTeamIdOf player
  let opponentTeamId := opponentIdOf player
  { playerId := player.bind PlayerObj.id
    playerName := resolveName player lineupSlotId nflTeamId
    position := resolvePosition player lineupSlotId
    lineupSlotId := lineupSlotId
    isStarter := decide (lineupSlotId < 20) && decide (lineupSlotId ≠ 21)
    nflTeam := if numTruthy nflTeamId then (lookupTeam nflTeamId).getD "FA" else "FA"
    opponent := if numTruthy opponentTeamId then lookupTeam opponentTeamId else none
    totalPoints := resolveTotalPoints e player
    projectedPoints := resolveProjectedPoints e player
    slotCategoryId := lineupSlotId }

/-- The sort comparator of lines 183-189 as a boolean "less or equal":
`compare(a,b) <= 0` for the JS comparator. -/
def rosterLE (a b : NormalizedPlayer) : Bool :=
  if a.isStarter != b.isStarter then a.isStarter
  else decide (a.lineupSlotId ≤ b.lineupSlotId)

/-- `processRoster` (lines 35-190).  `none` models a `null`, `undefined`
or non-array argument, which the guard turns into `[]`.  The JS engine's
`Array.prototype.sort` is stable, modelled by the stable `mergeSort`. -/
def processRoster (roster : Option (List RawEntry)) : List NormalizedPlayer :=
  match roster with
  | none => []
  | some l => (l.map normalizeEntry).mergeSort rosterLE

/-!
### Schedule estimator (`getCurrentNFLWeek`, lines 1031-1070)

Wall-clock instants are modelled at day granularity (the anchors are
midnights, so day granularity is order-exact): a date is a calendar
triple, and `dayNumber` maps it order-isomorphically to a day count.
`month` is 0-based like JS `Date.prototype.getMonth`.
-/

/-- A calendar date; `month` is 0-based (September = 8). -/
structure SimpleDate where
  year : Nat
  month : Nat
  day : Nat
deriving DecidableEq

/-- Gregorian leap-year rule. -/
def isLeapYear (y : Nat) : Bool :=
  (y % 4 == 0 && y % 100 != 0) || y % 400 == 0

/-- Days in the months before 0-based month `m` of year `y`. -/
def daysBeforeMonth (y m : Nat) : Nat :=
  (([31, 28, 31, 30, 31, 30, 31, 31, 30, 31, 30, 31].take m).foldl (· + ·) 0) +
    (if 2 ≤ m && isLeapYear y then 1 else 0)

/-- An order-isomorphic day count for a calendar date (enough for the
comparisons `now >= weekStarts[i]` of the source, which compare instants
chronologically). -/
def dayNumber (d : SimpleDate) : Nat :=
  365 * d.year + d.year / 4 + d.year / 400 - d.year / 100 +
    daysBeforeMonth d.year d.month + d.day

/-- Line 1037: September or later means the season started this year. -/
def seasonStartYear (now : SimpleDate) : Nat :=
  if 8 ≤ now.month then now.year else now.year - 1

/-- Lines 1040-1059: the 18 fixed week-start anchors of a season. -/
def weekStarts (y : Nat) : List SimpleDate :=
  [⟨y, 8, 5⟩, ⟨y, 8, 9⟩, ⟨y, 8, 16⟩, ⟨y, 8, 23⟩, ⟨y, 8, 30⟩,
   ⟨y, 9, 7⟩, ⟨y, 9, 14⟩, ⟨y, 9, 21⟩, ⟨y, 9, 28⟩,
   ⟨y, 10, 4⟩, ⟨y, 10, 11⟩, ⟨y, 10, 18⟩, ⟨y, 10, 25⟩,
   ⟨y, 11, 2⟩, ⟨y, 11, 9⟩, ⟨y, 11, 16⟩, ⟨y, 11, 23⟩, ⟨y, 11, 30⟩]

/-- Lines 1062-1069: scan the anchors from the last one down; the first
anchor at or before `now` gives the week, else week 1. -/
def findWeekFrom (nowDay : Nat) (anchors : List Nat) : Nat → Nat
  | 0 => 1
  | i + 1 => if anchors.getD i 0 ≤ nowDay then i + 1 else findWeekFrom nowDay anchors i

/-- `getCurrentNFLWeek` as a function of the current date. -/
def getCurrentNFLWeek (now : SimpleDate) : Nat :=
  findWeekFrom (dayNumber now) ((weekStarts (seasonStartYear now)).map dayNumber) 18

/-!
### Win-probability estimator (client `team.tsx`, lines 277-303)
-/

/-- Sum of the starters' projected points of a normalized roster (the
`filter(isStarter).reduce(...)` of the client). -/
def starterProjectedTotal (roster : List NormalizedPlayer) : ℚ :=
  ((roster.filter (fun p => p.isStarter)).map NormalizedPlayer.projectedPoints).foldl (· + ·) 0

/-- The win-probability formula of the client: variance 18, z-score of the
projected-point differential, `0.5 * (1 + tanh(z * sqrt(pi/8))) * 100`. -/
noncomputable def winProbOf (myProjected oppProjected : ℝ) : ℝ :=
  let variance : ℝ := 18
  let scoreDiff := myProjected - oppProjected
  let zScore := scoreDiff / (variance * Real.sqrt 2)
  0.5 * (1 + Real.tanh (zScore * Real.sqrt (Real.pi / 8))) * 100

/-- Win probability of two normalized rosters, as computed by the client
block (starter-only projected sums on each side). -/
noncomputable def winProbability (myRoster oppRoster : List NormalizedPlayer) : ℝ :=
  winProbOf (starterProjectedTotal myRoster : ℚ) (starterProjectedTotal oppRoster : ℚ)

/-- The display clamp `Math.min(Math.max(winProb, 5), 95)` applied to the
probability bar width. -/
noncomputable def clampedWinProb (w : ℝ) : ℝ := min (max w 5) 95

/-!
### Trade suggestion engine (`/api/trade-suggestions/:id`, lines 770-1004)
-/

/-- JS `s || d` for an optional string. -/
def strFalsyOr (s : Option String) (d : String) : String :=
  if strTruthy s then s.getD "" else d

/-- A roster player annotated with the trade-value fields of lines 817-831. -/
structure ValuedPlayer extends NormalizedPlayer where
  weeklyAvg : ℚ
  projectedAvg : ℚ
  value : ℚ
  seasonTotal : ℚ
deriving DecidableEq

/-- Lines 817-831: value = 60% projected points + 40% realized points per
week played (`currentWeek > 0` guard as in the source). -/
def addValue (currentWeek : Nat) (p : NormalizedPlayer) : ValuedPlayer :=
  let projectedAvg := p.projectedPoints
  let actualAvg : ℚ := if 0 < currentWeek then p.totalPoints / (currentWeek : ℚ) else 0
  { toNormalizedPlayer := p
    weeklyAvg := actualAvg
    projectedAvg := projectedAvg
    value := projectedAvg * 0.6 + actualAvg * 0.4
    seasonTotal := p.totalPoints }

/-- Per-position strength summary (lines 837-856; the display-only
`starters` list is not used by the suggestion computation and is
omitted). -/
structure PositionStrength where
  avgValue : ℚ
  topValue : ℚ
  depth : Nat
  players : List ValuedPlayer
deriving DecidableEq

/-- Descending-by-value comparator `(a, b) => b.value - a.value`. -/
def valueDescLE (a b : ValuedPlayer) : Bool := decide (b.value ≤ a.value)

/-- Lines 837-856: summary of one position's players. -/
def strengthFor (allPlayers : List ValuedPlayer) (pos : String) : PositionStrength :=
  let posPlayers := allPlayers.filter (fun p => p.position == pos)
  if posPlayers.isEmpty then
    { avgValue := 0, topValue := 0, depth := 0, players := [] }
  else
    let sorted := posPlayers.mergeSort valueDescLE
    { avgValue := ((sorted.map ValuedPlayer.value).foldl (· + ·) 0) / (sorted.length : ℚ)
      topValue := (sorted.head?.map ValuedPlayer.value).getD 0
      depth := (sorted.filter (fun p => decide (p.value > 5))).length
      players := sorted }

/-- The four positions the engine analyzes. -/
def corePositions : List String := ["QB", "RB", "WR", "TE"]

/-- A team's position strengths, computed from its roster restricted to
the four core positions (lines 835-856). -/
def positionStrengths (roster : List ValuedPlayer) : String → PositionStrength :=
  fun pos => strengthFor (roster.filter (fun p => corePositions.contains p.position)) pos

/-- Line 865: per-position strength score. -/
def positionScore (s : PositionStrength) : ℚ :=
  s.topValue * 0.5 + s.avgValue * 0.3 + (s.depth : ℚ) * 2

/-- Lines 859-867: the four core positions sorted ascending by strength
score (weakest first). -/
def positionRanking (strengths : String → PositionStrength) : List (String × ℚ) :=
  (corePositions.map (fun pos => (pos, positionScore (strengths pos)))).mergeSort
    (fun a b => decide (a.2 ≤ b.2))

/-- Lines 923-929: tradeable players of a position — value above 5 and
either a bench player or from a position with depth above 2, top 4. -/
def tradeable (strength : PositionStrength) : List ValuedPlayer :=
  (strength.players.filter
    (fun p => decide (p.value > 5) && (!p.isStarter || decide (strength.depth > 2)))).take 4

/-- Line 934-936: fairness of swapping two values. -/
def tradeFairness (v1 v2 : ℚ) : ℚ :=
  let valueDiff := |v1 - v2|
  let avgValue := (v1 + v2) / 2
  if avgValue > 0 then 1 - valueDiff / avgValue else 0

/-- One emitted trade suggestion (display-only stat-line strings of the
source record are not modelled; the raw players are carried instead). -/
structure TradeSuggestion where
  teamId : Int
  teamName : String
  tradeQuality : String
  myPlayer : ValuedPlayer
  theirPlayer : ValuedPlayer
  fairness : ℚ
  myImprovement : ℚ
  theirImprovement : ℚ
  score : ℚ
deriving DecidableEq

/-- Lines 931-991: the decision for one candidate pairing.  Returns
`none` when the pairing is not emitted. -/
def pairSuggestion (otherTeamId : Int) (otherTeamName : String)
    (myWeakStrength theirStrongStrength : PositionStrength)
    (myPlayer theirPlayer : ValuedPlayer) : Option TradeSuggestion :=
  let fairness := tradeFairness myPlayer.value theirPlayer.value
  let myNeedScore := (15 - myWeakStrength.topValue) / 15
  let myImprovement := theirPlayer.value - myWeakStrength.avgValue
  let theirImprovement := myPlayer.value - theirStrongStrength.avgValue
  if fairness > 0.65 ∧ myPlayer.value > 4 ∧ theirPlayer.value > 4 then
    let helpsMe := myImprovement > 1
    let helpsThem := theirImprovement > 1
    let mutualBenefit := helpsMe ∧ helpsThem
    if helpsMe ∨ mutualBenefit then
      some { teamId := otherTeamId
             teamName := otherTeamName
             tradeQuality :=
               if mutualBenefit then "Win-Win" else if helpsMe then "Favorable" else "Fair"
             myPlayer := myPlayer
             theirPlayer := theirPlayer
             fairness := fairness
             myImprovement := myImprovement
             theirImprovement := theirImprovement
             score := fairness * 100 + myImprovement * 5 +
               (if mutualBenefit then 30 else if helpsMe then 20 else 0) +
               myNeedScore * 10 }
    else none
  else none

/-- A fetched team: id, display name, raw roster. -/
structure TeamData where
  id : Int
  name : Option String := none
  roster : List RawEntry := []
deriving DecidableEq

/-- Lines 875-994: all pairings generated against one other team. -/
def teamSuggestions (currentWeek : Nat) (myStrengths : String → PositionStrength)
    (weakPositions strongPositions : List String) (other : TeamData) : List TradeSuggestion :=
  let theirRoster := (processRoster (some other.roster)).map (addValue currentWeek)
  let theirStrengths := positionStrengths theirRoster
  weakPositions.flatMap (fun weakPos =>
    strongPositions.flatMap (fun strongPos =>
      let myTradeable := tradeable (myStrengths strongPos)
      let theirTradeable := tradeable (theirStrengths weakPos)
      myTradeable.flatMap (fun myPlayer =>
        theirTradeable.filterMap (fun theirPlayer =>
          pairSuggestion other.id (strFalsyOr other.name ("Team " ++ toString other.id))
            (myStrengths weakPos) (theirStrengths strongPos) myPlayer theirPlayer))))

/-- The trade route from team-list fetch success onward (lines 811-999):
absent user team yields `[]`; otherwise suggestions over all other teams,
sorted descending by score, top 15. -/
def tradeSuggestionsResponse (currentWeek : Nat) (teams : List TeamData)
    (userTeamId : Option Int) : List TradeSuggestion :=
  match teams.find? (fun t => some t.id == userTeamId) with
  | none => []
  | some myTeam =>
    let myRoster := (processRoster (some myTeam.roster)).map (addValue currentWeek)
    let myStrengths := positionStrengths myRoster
    let ranking := positionRanking myStrengths
    let weakPositions := (ranking.take 2).map Prod.fst
    let strongPositions := (ranking.drop (ranking.length - 2)).map Prod.fst
    let all := (teams.filter (fun t => !(some t.id == userTeamId))).flatMap
      (teamSuggestions currentWeek myStrengths weakPositions strongPositions)
    (all.mergeSort (fun a b => decide (b.score ≤ a.score))).take 15

/-!
### Waiver-wire ranker (`/api/waiver-wire/:id`, lines 587-767)
-/

/-- One trending-add record from the external source. -/
structure TrendingEntry where
  playerId : String
  count : ℚ
deriving DecidableEq

/-- A player-directory record. -/
structure DirPlayer where
  firstName : Option String := none
  lastName : Option String := none
  fullName : Option String := none
  position : Option String := none
  team : Option String := none
deriving DecidableEq

/-- A season stat line kept in the stats map. -/
structure StatLine where
  points : ℚ
  weeklyAvg : ℚ
deriving DecidableEq

/-- The candidate display name: first+last trimmed, else full name, else
"Unknown" when the directory has no record. -/
def sleeperName (p : Option DirPlayer) : String :=
  match p with
  | none => "Unknown"
  | some pl =>
    let nm := ((pl.firstName.getD "") ++ " " ++ (pl.lastName.getD "")).trim
    if nm ≠ "" then nm else pl.fullName.getD ""

/-- The user's roster players at one resolved position (lines 699-704). -/
def playersAtPosition (roster : List NormalizedPlayer) (pos : String) : List NormalizedPlayer :=
  roster.filter (fun p => p.position == pos)

/-- Lines 707-712: a position's average total points. -/
def positionAverage (roster : List NormalizedPlayer) (pos : String) : ℚ :=
  let ps := playersAtPosition roster pos
  ((ps.map NormalizedPlayer.totalPoints).foldl (· + ·) 0) / (ps.length : ℚ)

/-- Lines 714-720: a position is weak when it is empty or averages below
8 points. -/
def isWeakPosition (roster : List NormalizedPlayer) (pos : String) : Bool :=
  (playersAtPosition roster pos).isEmpty || decide (positionAverage roster pos < 8)

/-- The weak-position set is only built over the four core positions. -/
def waiverWeak (roster : List NormalizedPlayer) (pos : String) : Bool :=
  corePositions.contains pos && isWeakPosition roster pos

/-- Lines 732-737: composite candidate score — trending adds, a 100-point
boost for a weak position, 10 per weekly-average point when stats exist. -/
def candidateScore (weak : String → Bool) (pos : String) (count : ℚ)
    (stats : Option StatLine) : ℚ :=
  count + (if weak pos then 100 else 0) +
    (match stats with
     | some st => st.weeklyAvg * 10
     | none => 0)

/-- A scored waiver candidate (display-only `toFixed` strings of the
source are not modelled). -/
structure WaiverCandidate where
  playerId : String
  name : String
  position : String
  team : String
  adds : ℚ
  score : ℚ
  recommendation : String
deriving DecidableEq

/-- Positions a candidate must have to be scored (line 728). -/
def draftablePositions : List String := ["QB", "RB", "WR", "TE", "K", "DEF"]

/-- Lines 723-757: one trending entry to a scored candidate, or `none`
when the player is unknown or not at a draftable position. -/
def waiverCandidate (players : String → Option DirPlayer) (stats : String → Option StatLine)
    (weak : String → Bool) (t : TrendingEntry) : Option WaiverCandidate :=
  match players t.playerId with
  | none => none
  | some pl =>
    if strTruthy pl.position && decide (pl.position.getD "" ∈ draftablePositions) then
      let pos := pl.position.getD ""
      some { playerId := t.playerId
             name := sleeperName (some pl)
             position := pos
             team := strFalsyOr pl.team "FA"
             adds := t.count
             score := candidateScore weak pos t.count (stats t.playerId)
             recommendation :=
               if weak pos then "Upgrade weak " ++ pos ++ " position"
               else "Trending high-value pickup" }
    else none

/-- Descending-score comparator `(a, b) => b.score - a.score`. -/
def waiverLE (a b : WaiverCandidate) : Bool := decide (b.score ≤ a.score)

/-- Lines 722-762: score all trending candidates against the user's
roster, sort descending by score, return the top 25. -/
def waiverRanking (trending : List TrendingEntry) (players : String → Option DirPlayer)
    (stats : String → Option StatLine) (roster : List NormalizedPlayer) : List WaiverCandidate :=
  ((trending.filterMap (waiverCandidate players stats (waiverWeak roster))).mergeSort
    waiverLE).take 25

/-- A reduced-functionality candidate returned by the fallback paths. -/
structure FallbackItem where
  playerId : String
  name : String
  position : String
  team : String
  adds : ℚ
  recommendation : String
deriving DecidableEq

/-- Lines 661-674 and 681-694: the trending-only mapping. -/
def fallbackItem (players : String → Option DirPlayer) (t : TrendingEntry) : FallbackItem :=
  { playerId := t.playerId
    name := sleeperName (players t.playerId)
    position :=
      match players t.playerId with
      | some p => strFalsyOr p.position "N/A"
      | none => "N/A"
    team :=
      match players t.playerId with
      | some p => strFalsyOr p.team "FA"
      | none => "FA"
    adds := t.count
    recommendation := "Trending pickup" }

/-- `trending.slice(0, 25).map(...)` of the fallback paths. -/
def trendingFallback (trending : List TrendingEntry)
    (players : String → Option DirPlayer) : List FallbackItem :=
  (trending.take 25).map (fallbackItem players)

/-- The two response shapes the waiver route can produce. -/
inductive WaiverResponse where
  | fallback (items : List FallbackItem)
  | ranked (items : List WaiverCandidate)
deriving DecidableEq

/-- The waiver route from the ESPN team fetch onward: `none` for the team
list models the fetch having failed (the `catch` of lines 658-676); a
missing user team (lines 678-696) also degrades to the trending-only
fallback. -/
def waiverResponse (teams? : Option (List TeamData)) (userTeamId : Option Int)
    (trending : List TrendingEntry) (players : String → Option DirPlayer)
    (stats : String → Option StatLine) : WaiverResponse :=
  match teams? with
  | none => .fallback (trendingFallback trending players)
  | some teams =>
    match teams.find? (fun t => some t.id == userTeamId) with
    | none => .fallback (trendingFallback trending players)
    | some myTeam =>
      .ranked (waiverRanking trending players stats (processRoster (some myTeam.roster)))

/-!
### Concrete inputs used by witnesses and the counterexample
-/

/-- An entry carrying an entry-level breakdown whose `usesPoints` flag is
falsy, together with a direct `projectedPoints` field. -/
def c7Entry : RawEntry :=
  { projectedPointBreakdown := some ⟨false, [("passYards", some 5)]⟩
    projectedPoints := some 7 }

/-- An entry carrying an entry-level breakdown whose `usesPoints` flag is
truthy, together with a direct `projectedPoints` field. -/
def c7WitnessEntry : RawEntry :=
  { projectedPointBreakdown := some ⟨true, [("passYards", some 5), ("usesPoints", none)]⟩
    projectedPoints := some 7 }

/-- A concrete valued player used to exercise the pairing gate. -/
def c4Player : ValuedPlayer :=
  { toNormalizedPlayer := normalizeEntry {}
    weeklyAvg := 0
    projectedAvg := 0
    value := 10
    seasonTotal := 0 }

/-- An all-zero position strength. -/
def zeroStrength : PositionStrength :=
  { avgValue := 0, topValue := 0, depth := 0, players := [] }

/-- A quarterback averaging 3 points (below the weakness threshold). -/
def weakQB : NormalizedPlayer :=
  { playerId := none, playerName := "Weak QB", position := "QB", lineupSlotId := 0,
    isStarter := true, nflTeam := "FA", opponent := none, totalPoints := 3,
    projectedPoints := 0, slotCategoryId := 0 }

/-- A quarterback averaging 12 points (above the weakness threshold). -/
def strongQB : NormalizedPlayer :=
  { playerId := none, playerName := "Strong QB", position := "QB", lineupSlotId := 0,
    isStarter := true, nflTeam := "FA", opponent := none, totalPoints := 12,
    projectedPoints := 0, slotCategoryId := 0 }

/-- The suggestion the pairing gate emits for two copies of `c4Player`
against all-zero strengths. -/
def c4Sugg : TradeSuggestion :=
  { teamId := 2
    teamName := "Team 2"
    tradeQuality := "Win-Win"
    myPlayer := c4Player
    theirPlayer := c4Player
    fairness := 1
    myImprovement := 10
    theirImprovement := 10
    score := 190 }

/-!
## Theorems
-/

theorem findWeekFrom_pos (now : Nat) (a : List Nat) (n : Nat) :
    1 ≤ findWeekFrom now a n := by
  induction n with
  | zero => simp [findWeekFrom]
  | succ i ih =>
    simp only [findWeekFrom]
    split
    · omega
    · exact ih

theorem findWeekFrom_le (now : Nat) (a : List Nat) (n : Nat) :
    findWeekFrom now a n ≤ max 1 n := by
  induction n with
  | zero => simp [findWeekFrom]
  | succ i ih =>
    simp only [findWeekFrom]
    split
    · omega
    · omega

theorem findWeekFrom_ge (now : Nat) (a : List Nat) (n i : Nat) (hi : i < n)
    (ha : a.getD i 0 ≤ now) : i + 1 ≤ findWeekFrom now a n := by
  induction n with
  | zero => omega
  | succ m ih =>
    simp only [findWeekFrom]
    split
    · omega
    · rename_i hm
      have hne : i ≠ m := by
        intro h
        exact hm (h ▸ ha)
      exact ih (by omega)

theorem findWeekFrom_last (now : Nat) (a : List Nat) (n : Nat) :
    findWeekFrom now a n = 1 ∨ a.getD (findWeekFrom now a n - 1) 0 ≤ now := by
  induction n with
  | zero => left; rfl
  | succ m ih =>
    simp only [findWeekFrom]
    split
    · rename_i hm
      right
      simpa using hm
    · exact ih

theorem findWeekFrom_mono (now1 now2 : Nat) (a : List Nat) (h : now1 ≤ now2) (n : Nat) :
    findWeekFrom now1 a n ≤ findWeekFrom now2 a n := by
  induction n with
  | zero => simp [findWeekFrom]
  | succ m ih =>
    simp only [findWeekFrom]
    by_cases h1 : a.getD m 0 ≤ now1
    · rw [if_pos h1, if_pos (le_trans h1 h)]
    · rw [if_neg h1]
      by_cases h2 : a.getD m 0 ≤ now2
      · rw [if_pos h2]
        have := findWeekFrom_le now1 a m
        omega
      · rw [if_neg h2]
        exact ih

/-- C6: `getCurrentNFLWeek` always returns a week in [1,18]; it is the
highest 1-based index whose anchor date is at or before the current date
(defaulting to 1 when no anchor has been reached); and within one
resolved season it is monotonically non-decreasing in the date. -/
theorem C6_current_week_bounds_characterization_mono (d : SimpleDate) :
    (1 ≤ getCurrentNFLWeek d ∧ getCurrentNFLWeek d ≤ 18) ∧
    (∀ i : Nat, i < 18 →
      ((weekStarts (seasonStartYear d)).map dayNumber).getD i 0 ≤ dayNumber d →
      i + 1 ≤ getCurrentNFLWeek d) ∧
    (getCurrentNFLWeek d = 1 ∨
      ((weekStarts (seasonStartYear d)).map dayNumber).getD (getCurrentNFLWeek d - 1) 0 ≤
        dayNumber d) ∧
    (∀ d2 : SimpleDate, seasonStartYear d = seasonStartYear d2 →
      dayNumber d ≤ dayNumber d2 → getCurrentNFLWeek d ≤ getCurrentNFLWeek d2) := by
  refine ⟨⟨findWeekFrom_pos _ _ _, ?_⟩, ?_, findWeekFrom_last _ _ _, ?_⟩
  · have := findWeekFrom_le (dayNumber d)
      ((weekStarts (seasonStartYear d)).map dayNumber) 18
    unfold getCurrentNFLWeek
    omega
  · intro i hi ha
    exact findWeekFrom_ge _ _ 18 i hi ha
  · intro d2 hseason hle
    unfold getCurrentNFLWeek
    rw [hseason]
    exact findWeekFrom_mono _ _ _ hle 18

/-- Witness for C6 at concrete dates of the 2024 season. -/
theorem C6_witness :
    (1 ≤ getCurrentNFLWeek ⟨2024, 9, 15⟩ ∧ getCurrentNFLWeek ⟨2024, 9, 15⟩ ≤ 18) ∧
    7 ≤ getCurrentNFLWeek ⟨2024, 9, 15⟩ ∧
    getCurrentNFLWeek ⟨2024, 9, 15⟩ ≤ getCurrentNFLWeek ⟨2024, 10, 20⟩ :=
  ⟨(C6_current_week_bounds_characterization_mono ⟨2024, 9, 15⟩).1,
   (C6_current_week_bounds_characterization_mono ⟨2024, 9, 15⟩).2.1 6 (by decide) (by decide),
   (C6_current_week_bounds_characterization_mono ⟨2024, 9, 15⟩).2.2.2 ⟨2024, 10, 20⟩
     (by decide) (by decide)⟩

/-- C10: a `null`/`undefined`/non-array roster maps to `[]`, and an array
input yields exactly one normalized record per entry. -/
theorem C10_guard_and_length :
    processRoster none = [] ∧
    ∀ l : List RawEntry, (processRoster (some l)).length = l.length := by
  refine ⟨rfl, ?_⟩
  intro l
  simp [processRoster]

/-- C2: `isStarter` is true iff the resolved lineup slot id is below 20
and is not 21, and is false for every slot id at or above 20. -/
theorem C2_isStarter_iff (e : RawEntry) :
    ((normalizeEntry e).isStarter = true ↔
      (normalizeEntry e).lineupSlotId < 20 ∧ (normalizeEntry e).lineupSlotId ≠ 21) ∧
    (20 ≤ (normalizeEntry e).lineupSlotId → (normalizeEntry e).isStarter = false) := by
  have h : (normalizeEntry e).isStarter =
      (decide ((normalizeEntry e).lineupSlotId < 20) &&
        decide ((normalizeEntry e).lineupSlotId ≠ 21)) := rfl
  constructor
  · rw [h]
    simp
  · intro hge
    rw [h]
    simp only [Bool.and_eq_false_iff, decide_eq_false_iff_not, not_lt]
    left
    omega

/-- Witness for C2: the default (empty) entry resolves to the bench slot
and is not a starter. -/
theorem C2_witness : (normalizeEntry {}).isStarter = false :=
  (C2_isStarter_iff {}).2 (by decide)

theorem rosterLE_trans (a b c : NormalizedPlayer) :
    rosterLE a b → rosterLE b c → rosterLE a c := by
  unfold rosterLE
  cases ha : a.isStarter <;> cases hb : b.isStarter <;> cases hc : c.isStarter <;>
    simp_all <;> omega

theorem rosterLE_total (a b : NormalizedPlayer) :
    rosterLE a b || rosterLE b a := by
  unfold rosterLE
  cases ha : a.isStarter <;> cases hb : b.isStarter <;> simp_all <;> omega

theorem rosterLE_imp (a b : NormalizedPlayer) (h : rosterLE a b = true) :
    (a.isStarter = true ∧ b.isStarter = false) ∨
      (a.isStarter = b.isStarter ∧ a.lineupSlotId ≤ b.lineupSlotId) := by
  unfold rosterLE at h
  cases ha : a.isStarter <;> cases hb : b.isStarter <;> simp_all

/-- C8: the processed roster lists all starters before all bench/IR
entries, ascending by slot id within each group, and the sort is stable:
entries agreeing on `isStarter` and `lineupSlotId` keep their input
order. -/
theorem C8_sort_contract (l : List RawEntry) :
    (processRoster (some l)).Pairwise (fun a b =>
      (a.isStarter = true ∧ b.isStarter = false) ∨
      (a.isStarter = b.isStarter ∧ a.lineupSlotId ≤ b.lineupSlotId)) ∧
    ∀ (s : Bool) (k : Int),
      (processRoster (some l)).filter (fun p => p.isStarter == s && p.lineupSlotId == k) =
        (l.map normalizeEntry).filter (fun p => p.isStarter == s && p.lineupSlotId == k) := by
  simp only [processRoster]
  constructor
  · have hs := List.sorted_mergeSort rosterLE_trans rosterLE_total (l.map normalizeEntry)
    exact hs.imp (fun h => rosterLE_imp _ _ h)
  · intro s k
    have hCsub : List.Sublist ((l.map normalizeEntry).filter
        (fun p => p.isStarter == s && p.lineupSlotId == k)) (l.map normalizeEntry) :=
      List.filter_sublist _
    have hCpair : ((l.map normalizeEntry).filter
        (fun p => p.isStarter == s && p.lineupSlotId == k)).Pairwise
        (fun a b => rosterLE a b = true) := by
      apply List.pairwise_of_forall_mem_list
      intro a ha b hb
      have ha2 := (List.mem_filter.mp ha).2
      have hb2 := (List.mem_filter.mp hb).2
      simp only [Bool.and_eq_true, beq_iff_eq] at ha2 hb2
      unfold rosterLE
      rw [ha2.1, hb2.1, ha2.2, hb2.2]
      simp
    have hsub2 := List.sublist_mergeSort rosterLE_trans rosterLE_total hCpair hCsub
    have hfix : (((l.map normalizeEntry).filter
        (fun p => p.isStarter == s && p.lineupSlotId == k)).filter
        (fun p => p.isStarter == s && p.lineupSlotId == k)) =
        ((l.map normalizeEntry).filter (fun p => p.isStarter == s && p.lineupSlotId == k)) := by
      apply List.filter_eq_self.mpr
      intro a ha
      exact (List.mem_filter.mp ha).2
    have hsub3 := hsub2.filter (fun p => p.isStarter == s && p.lineupSlotId == k)
    rw [hfix] at hsub3
    have hperm := (List.mergeSort_perm (l.map normalizeEntry) rosterLE).filter
      (fun p => p.isStarter == s && p.lineupSlotId == k)
    exact (hsub3.eq_of_length hperm.length_eq.symm).symm

theorem strTruthy_getD (o : Option String) (h : strTruthy o = true) : o.getD "" ≠ "" := by
  cases o with
  | none => simp [strTruthy] at h
  | some s => simpa [strTruthy] using h

theorem string_append_ne_empty (a b : String) (hb : b ≠ "") : a ++ b ≠ "" := by
  intro hab
  apply hb
  have hdata := congrArg String.data hab
  rw [String.data_append] at hdata
  exact String.ext (List.append_eq_nil.mp hdata).2

theorem resolveName_ne_empty (player? : Option PlayerObj) (slot : Int) (tid : Option Int) :
    resolveName player? slot tid ≠ "" := by
  cases player? with
  | none => simp [resolveName]
  | some p =>
    show (if strTruthy p.fullName then p.fullName.getD ""
      else if strTruthy p.firstName && strTruthy p.lastName then
        p.firstName.getD "" ++ " " ++ p.lastName.getD ""
      else if decide (slot = 16) && numTruthy tid && (lookupTeam tid).isSome then
        (lookupTeam tid).getD "" ++ " D/ST"
      else if strTruthy p.lastName then p.lastName.getD ""
      else if numTruthy tid && (lookupTeam tid).isSome then
        (lookupTeam tid).getD "" ++ " D/ST"
      else "Empty Slot") ≠ ""
    split_ifs with h1 h2 h3 h4 h5
    · exact strTruthy_getD _ h1
    · have hl : strTruthy p.lastName = true := by
        simp only [Bool.and_eq_true] at h2
        exact h2.2
      exact string_append_ne_empty _ _ (strTruthy_getD _ hl)
    · exact string_append_ne_empty _ " D/ST" (by decide)
    · exact strTruthy_getD _ h4
    · exact string_append_ne_empty _ " D/ST" (by decide)
    · decide

theorem positionFromDefault_mem (p? : Option PlayerObj) (v : String)
    (h : positionFromDefault p? = some v) : v ∈ allowedPositions := by
  have hsub : ∀ x ∈ standardPositions, x ∈ allowedPositions := by decide
  cases p? with
  | none => simp [positionFromDefault] at h
  | some p =>
    simp only [positionFromDefault] at h
    split at h
    · split at h
      · rename_i pos heq
        cases h
        have hp := List.find?_some heq
        exact hsub _ (of_decide_eq_true hp)
      · split at h
        · cases h
          decide
        · simp at h
    · simp at h

theorem positionFromEligible_mem (p? : Option PlayerObj) (v : String)
    (h : positionFromEligible p? = some v) : v ∈ allowedPositions := by
  have hsub : ∀ x ∈ eligibleFilter,
      (if x == "DEF" then "D/ST" else x) ∈ allowedPositions := by decide
  cases p? with
  | none => simp [positionFromEligible] at h
  | some p =>
    simp only [positionFromEligible] at h
    split at h
    · simp at h
    · split at h
      · rename_i pos heq
        cases h
        have hp := List.find?_some heq
        exact hsub _ (of_decide_eq_true hp)
      · simp at h

theorem positionFromSlot_mem (slot : Int) (v : String)
    (h : positionFromSlot slot = some v) : v ∈ allowedPositions := by
  unfold positionFromSlot at h
  split at h
  · split at h
    · cases h; decide
    · split at h
      · cases h; decide
      · split at h
        · cases h; decide
        · split at h
          · cases h; decide
          · split at h
            · cases h; decide
            · split at h
              · cases h; decide
              · simp at h
  · simp at h

theorem resolvePosition_mem (p? : Option PlayerObj) (slot : Int) :
    resolvePosition p? slot ∈ allowedPositions := by
  unfold resolvePosition
  cases hd : positionFromDefault p? with
  | some v => simpa [jsOr] using positionFromDefault_mem p? v hd
  | none =>
    cases he : positionFromEligible p? with
    | some v => simpa [jsOr] using positionFromEligible_mem p? v he
    | none =>
      cases hs : positionFromSlot slot with
      | some v => simpa [jsOr] using positionFromSlot_mem slot v hs
      | none => simp [jsOr, allowedPositions]

/-- C1: per-entry normalization is total on every known (and unknown)
entry shape: the display name is a non-empty string, falling back to
"Empty Slot" when no player object resolves; the position is always one
of the known labels with fallback `N/A`; and both point totals default to
0 when every source field is absent. -/
theorem C1_normalization_total (e : RawEntry) :
    (normalizeEntry e).playerName ≠ "" ∧
    ((resolvePlayerAndSlot e).1 = none → (normalizeEntry e).playerName = "Empty Slot") ∧
    (normalizeEntry e).position ∈ allowedPositions ∧
    (e.totalPoints = none → e.points = none → e.appliedStatTotal = none →
      (resolvePlayerAndSlot e).1.bind PlayerObj.totalPoints = none →
      (normalizeEntry e).totalPoints = 0) ∧
    (e.projectedPointBreakdown = none →
      (resolvePlayerAndSlot e).1.bind PlayerObj.projectedPointBreakdown = none →
      e.playerPoolEntryPlayer.bind PlayerObj.projectedPointBreakdown = none →
      e.projectedPoints = none →
      (resolvePlayerAndSlot e).1.bind PlayerObj.projectedPoints = none →
      e.playerPoolEntryPlayer.bind PlayerObj.projectedPoints = none →
      (normalizeEntry e).projectedPoints = 0) := by
  refine ⟨?_, ?_, ?_, ?_, ?_⟩
  · exact resolveName_ne_empty _ _ _
  · intro h
    show resolveName (resolvePlayerAndSlot e).1 (resolvePlayerAndSlot e).2
      (nflTeamIdOf (resolvePlayerAndSlot e).1) = "Empty Slot"
    rw [h]
    rfl
  · exact resolvePosition_mem _ _
  · intro h1 h2 h3 h4
    show resolveTotalPoints e (resolvePlayerAndSlot e).1 = 0
    unfold resolveTotalPoints
    rw [h1, h2, h3, h4]
    rfl
  · intro h1 h2 h3 h4 h5 h6
    show resolveProjectedPoints e (resolvePlayerAndSlot e).1 = 0
    unfold resolveProjectedPoints
    rw [h1, h2, h3, h4, h5, h6]
    rfl

/-- Counterexample to C7 as stated: `c7Entry` carries an entry-level
projected-point breakdown (summing to 5), yet the normalized
projectedPoints is the direct field 7, because the breakdown's
`usesPoints` flag is falsy and the code only sums a breakdown whose flag
is truthy. -/
theorem C7_counterexample :
    (normalizeEntry c7Entry).projectedPoints = 7 ∧
    sumBreakdown ⟨false, [("passYards", some 5)]⟩ = 5 ∧
    (7 : ℚ) ≠ 5 := by
  refine ⟨by decide, ?_, by norm_num⟩
  show (0 : ℚ) + 5 = 5
  norm_num

/-- C7 (amended): the breakdown is summed only when its `usesPoints` flag
is truthy — player level first, then entry level, then the nested
`playerPoolEntry.player` level; only when no level has a truthy-flagged
breakdown does the direct `projectedPoints` fallback chain apply, else
0. -/
theorem C7_amended_projectedPoints (e : RawEntry) :
    (bdUses ((resolvePlayerAndSlot e).1.bind PlayerObj.projectedPointBreakdown) = true →
      (normalizeEntry e).projectedPoints =
        sumBreakdown (((resolvePlayerAndSlot e).1.bind PlayerObj.projectedPointBreakdown).getD
          ⟨false, []⟩)) ∧
    (bdUses ((resolvePlayerAndSlot e).1.bind PlayerObj.projectedPointBreakdown) = false →
      bdUses e.projectedPointBreakdown = true →
      (normalizeEntry e).projectedPoints =
        sumBreakdown (e.projectedPointBreakdown.getD ⟨false, []⟩)) ∧
    (bdUses ((resolvePlayerAndSlot e).1.bind PlayerObj.projectedPointBreakdown) = false →
      bdUses e.projectedPointBreakdown = false →
      bdUses (e.playerPoolEntryPlayer.bind PlayerObj.projectedPointBreakdown) = true →
      (normalizeEntry e).projectedPoints =
        sumBreakdown ((e.playerPoolEntryPlayer.bind PlayerObj.projectedPointBreakdown).getD
          ⟨false, []⟩)) ∧
    (bdUses ((resolvePlayerAndSlot e).1.bind PlayerObj.projectedPointBreakdown) = false →
      bdUses e.projectedPointBreakdown = false →
      bdUses (e.playerPoolEntryPlayer.bind PlayerObj.projectedPointBreakdown) = false →
      (normalizeEntry e).projectedPoints =
        (jsOr e.projectedPoints (jsOr ((resolvePlayerAndSlot e).1.bind PlayerObj.projectedPoints)
          (e.playerPoolEntryPlayer.bind PlayerObj.projectedPoints))).getD 0) := by
  refine ⟨?_, ?_, ?_, ?_⟩
  · intro h1
    show resolveProjectedPoints e (resolvePlayerAndSlot e).1 = _
    unfold resolveProjectedPoints
    rw [if_pos h1]
  · intro h1 h2
    show resolveProjectedPoints e (resolvePlayerAndSlot e).1 = _
    unfold resolveProjectedPoints
    rw [if_neg (by simp [h1]), if_pos h2]
  · intro h1 h2 h3
    show resolveProjectedPoints e (resolvePlayerAndSlot e).1 = _
    unfold resolveProjectedPoints
    rw [if_neg (by simp [h1]), if_neg (by simp [h2]), if_pos h3]
  · intro h1 h2 h3
    show resolveProjectedPoints e (resolvePlayerAndSlot e).1 = _
    unfold resolveProjectedPoints
    rw [if_neg (by simp [h1]), if_neg (by simp [h2]), if_neg (by simp [h3])]

/-- Witness for C7's amended claim: an entry-level breakdown with a
truthy `usesPoints` flag is summed (the direct field 7 is ignored). -/
theorem C7_witness :
    (normalizeEntry c7WitnessEntry).projectedPoints =
      sumBreakdown (c7WitnessEntry.projectedPointBreakdown.getD ⟨false, []⟩) :=
  (C7_amended_projectedPoints c7WitnessEntry).2.1 rfl rfl

/-- C4: a player's trade value is 0.6·projectedPoints plus
0.4·(totalPoints per week played); the fairness of swapping two equal
positive values is exactly 1; and an emitted pairing always has fairness
above 0.65 and both values above 4 — equivalently, a pairing is never
emitted when fairness ≤ 0.65 or either value ≤ 4. -/
theorem C4_value_fairness_gate :
    (∀ (w : Nat) (p : NormalizedPlayer), 0 < w →
      (addValue w p).value = 0.6 * p.projectedPoints + 0.4 * (p.totalPoints / (w : ℚ))) ∧
    (∀ v : ℚ, 0 < v → tradeFairness v v = 1) ∧
    (∀ (tid : Int) (tname : String) (sw st : PositionStrength) (mp tp : ValuedPlayer)
        (s : TradeSuggestion),
      pairSuggestion tid tname sw st mp tp = some s →
      s.fairness = tradeFairness mp.value tp.value ∧
      tradeFairness mp.value tp.value > 0.65 ∧ mp.value > 4 ∧ tp.value > 4) := by
  refine ⟨?_, ?_, ?_⟩
  · intro w p hw
    show p.projectedPoints * 0.6 + (if 0 < w then p.totalPoints / (w : ℚ) else 0) * 0.4 = _
    rw [if_pos hw]
    ring
  · intro v hv
    show (if (v + v) / 2 > 0 then 1 - |v - v| / ((v + v) / 2) else 0) = 1
    rw [show (v + v) / 2 = v from by ring, if_pos hv]
    simp [sub_self]
  · intro tid tname sw st mp tp s h
    simp only [pairSuggestion] at h
    split at h
    · rename_i hgate
      split at h
      · cases h
        exact ⟨rfl, hgate.1, hgate.2.1, hgate.2.2⟩
      · simp at h
    · simp at h

theorem waiverLE_trans (a b c : WaiverCandidate) :
    waiverLE a b → waiverLE b c → waiverLE a c := by
  simp only [waiverLE, decide_eq_true_eq]
  intro h1 h2
  exact le_trans h2 h1

theorem waiverLE_total (a b : WaiverCandidate) :
    waiverLE a b || waiverLE b a := by
  simp only [waiverLE, Bool.or_eq_true, decide_eq_true_eq]
  exact le_total b.score a.score

/-- C5: a core position is weak iff it is empty or averages below 8
points; every scored candidate's composite score is adds + weak-position
boost + 10 per weekly-average point; the response is the candidates
sorted descending by score, truncated to 25; and a weak-QB roster boosts
a QB candidate's score by exactly 100 over a non-weak-QB roster. -/
theorem C5_waiver_scoring :
    (∀ (roster : List NormalizedPlayer) (pos : String),
      isWeakPosition roster pos = true ↔
        (playersAtPosition roster pos = [] ∨ positionAverage roster pos < 8)) ∧
    (∀ (players : String → Option DirPlayer) (stats : String → Option StatLine)
        (weak : String → Bool) (t : TrendingEntry) (c : WaiverCandidate),
      waiverCandidate players stats weak t = some c →
      c.position ∈ draftablePositions ∧
      c.score = t.count + (if weak c.position then 100 else 0) +
        10 * ((stats t.playerId).map StatLine.weeklyAvg).getD 0) ∧
    (∀ (trending : List TrendingEntry) (players : String → Option DirPlayer)
        (stats : String → Option StatLine) (roster : List NormalizedPlayer),
      waiverRanking trending players stats roster =
        ((trending.filterMap (waiverCandidate players stats (waiverWeak roster))).mergeSort
          waiverLE).take 25 ∧
      (waiverRanking trending players stats roster).Pairwise
        (fun a b => b.score ≤ a.score) ∧
      (waiverRanking trending players stats roster).length ≤ 25) ∧
    (∀ (r1 r2 : List NormalizedPlayer) (cnt : ℚ) (st : Option StatLine),
      playersAtPosition r1 "QB" ≠ [] → positionAverage r1 "QB" < 8 →
      playersAtPosition r2 "QB" ≠ [] → ¬ positionAverage r2 "QB" < 8 →
      candidateScore (waiverWeak r1) "QB" cnt st =
        candidateScore (waiverWeak r2) "QB" cnt st + 100) := by
  refine ⟨?_, ?_, ?_, ?_⟩
  · intro roster pos
    simp [isWeakPosition, List.isEmpty_iff]
  · intro players stats weak t c h
    unfold waiverCandidate at h
    split at h
    · simp at h
    · rename_i pl hpl
      split at h
      · rename_i hcond
        simp only [Bool.and_eq_true] at hcond
        cases h
        refine ⟨of_decide_eq_true hcond.2, ?_⟩
        unfold candidateScore
        cases hst : stats t.playerId with
        | none => simp [hst]
        | some stl => simp [hst]; ring
      · simp at h
  · intro trending players stats roster
    refine ⟨rfl, ?_, ?_⟩
    · have hsorted := List.sorted_mergeSort waiverLE_trans waiverLE_total
        (trending.filterMap (waiverCandidate players stats (waiverWeak roster)))
      have htake := List.Pairwise.sublist (List.take_sublist 25
        ((trending.filterMap (waiverCandidate players stats (waiverWeak roster))).mergeSort
          waiverLE)) hsorted
      exact htake.imp (fun h => of_decide_eq_true h)
    · show (List.take 25 _).length ≤ 25
      rw [List.length_take]
      omega
  · intro r1 r2 cnt st h1 h2 h3 h4
    have hc : corePositions.contains "QB" = true := by decide
    have hw1 : waiverWeak r1 "QB" = true := by
      unfold waiverWeak isWeakPosition
      rw [hc, Bool.true_and, decide_eq_true h2, Bool.or_true]
    have hw2 : waiverWeak r2 "QB" = false := by
      unfold waiverWeak isWeakPosition
      have he : (playersAtPosition r2 "QB").isEmpty = false := by
        cases hcase : playersAtPosition r2 "QB" with
        | nil => exact absurd hcase h3
        | cons a l => rfl
      rw [hc, Bool.true_and, he, decide_eq_false h4, Bool.or_false]
    unfold candidateScore
    rw [hw1, hw2]
    cases st with
    | none => simp
    | some stl =>
      simp
      ring

/-- Witness for C5: a one-player weak-QB roster versus a strong-QB
roster shifts a QB candidate's score by exactly 100. -/
theorem C5_witness :
    (isWeakPosition [] "QB" = true ↔
      (playersAtPosition [] "QB" = [] ∨ positionAverage [] "QB" < 8)) ∧
    candidateScore (waiverWeak [weakQB]) "QB" 3 none =
      candidateScore (waiverWeak [strongQB]) "QB" 3 none + 100 :=
  ⟨C5_waiver_scoring.1 [] "QB",
   C5_waiver_scoring.2.2.2 [weakQB] [strongQB] 3 none
     (by simp [playersAtPosition, weakQB])
     (by norm_num [positionAverage, playersAtPosition, weakQB])
     (by simp [playersAtPosition, strongQB])
     (by norm_num [positionAverage, playersAtPosition, strongQB])⟩

/-- C9: when the team fetch fails or the selected team is absent, the
waiver route degrades to the trending-only top-25 fallback whose items
all carry recommendation "Trending pickup", and the trade route returns
the empty suggestion list. -/
theorem C9_degraded_fallbacks :
    (∀ (uid : Option Int) (trending : List TrendingEntry)
        (players : String → Option DirPlayer) (stats : String → Option StatLine),
      waiverResponse none uid trending players stats =
        WaiverResponse.fallback (trendingFallback trending players)) ∧
    (∀ (teams : List TeamData) (uid : Option Int) (trending : List TrendingEntry)
        (players : String → Option DirPlayer) (stats : String → Option StatLine),
      teams.find? (fun t => some t.id == uid) = none →
      waiverResponse (some teams) uid trending players stats =
        WaiverResponse.fallback (trendingFallback trending players)) ∧
    (∀ (trending : List TrendingEntry) (players : String → Option DirPlayer),
      (trendingFallback trending players).length ≤ 25 ∧
      ∀ item ∈ trendingFallback trending players,
        item.recommendation = "Trending pickup") ∧
    (∀ (w : Nat) (teams : List TeamData) (uid : Option Int),
      teams.find? (fun t => some t.id == uid) = none →
      tradeSuggestionsResponse w teams uid = []) := by
  refine ⟨fun uid trending players stats => rfl, ?_, ?_, ?_⟩
  · intro teams uid trending players stats h
    simp only [waiverResponse]
    rw [h]
  · intro trending players
    constructor
    · show ((trending.take 25).map _).length ≤ 25
      rw [List.length_map, List.length_take]
      omega
    · intro item hitem
      obtain ⟨t, ht, rfl⟩ := List.mem_map.mp hitem
      rfl
  · intro w teams uid h
    unfold tradeSuggestionsResponse
    rw [h]

/-- Witness for C9 on the empty league. -/
theorem C9_witness :
    waiverResponse (some []) none [] (fun _ => none) (fun _ => none) =
      WaiverResponse.fallback (trendingFallback [] (fun _ => none)) ∧
    tradeSuggestionsResponse 1 [] none = [] :=
  ⟨C9_degraded_fallbacks.2.1 [] none [] (fun _ => none) (fun _ => none) rfl,
   C9_degraded_fallbacks.2.2.2 1 [] none rfl⟩

theorem tanh_lt_one_real (x : ℝ) : Real.tanh x < 1 := by
  rw [Real.tanh_eq_sinh_div_cosh, div_lt_one (Real.cosh_pos x)]
  exact Real.sinh_lt_cosh x

theorem tanh_ge_of_nine_le (x : ℝ) (hx : 9 ≤ x) : 0.9 ≤ Real.tanh x := by
  rw [Real.tanh_eq_sinh_div_cosh, le_div_iff₀ (Real.cosh_pos x)]
  rw [Real.sinh_eq, Real.cosh_eq]
  have h1 : Real.exp x * Real.exp (-x) = 1 := by
    rw [← Real.exp_add]
    simp
  have h2 : (10 : ℝ) ≤ Real.exp x := by
    have := Real.add_one_le_exp x
    linarith
  have h3 : 0 < Real.exp (-x) := Real.exp_pos _
  nlinarith

theorem winprob_scale_ge (d : ℝ) (hd : 1000 ≤ d) :
    9 ≤ d / (18 * Real.sqrt 2) * Real.sqrt (Real.pi / 8) := by
  have hs2pos : 0 < Real.sqrt 2 := Real.sqrt_pos.mpr (by norm_num)
  have hs2le : Real.sqrt 2 ≤ 3 / 2 := by
    rw [show (3 : ℝ) / 2 = Real.sqrt ((3 / 2) ^ 2) from (Real.sqrt_sq (by norm_num)).symm]
    exact Real.sqrt_le_sqrt (by norm_num)
  have hsp : (0.6 : ℝ) ≤ Real.sqrt (Real.pi / 8) := by
    rw [show (0.6 : ℝ) = Real.sqrt (0.6 ^ 2) from (Real.sqrt_sq (by norm_num)).symm]
    apply Real.sqrt_le_sqrt
    nlinarith [Real.pi_gt_three]
  have hd27 : (1000 : ℝ) / 27 ≤ d / (18 * Real.sqrt 2) := by
    rw [div_le_div_iff₀ (by norm_num) (by positivity)]
    nlinarith
  have hnn : (0 : ℝ) ≤ d / (18 * Real.sqrt 2) := by
    apply div_nonneg (by linarith)
    positivity
  calc (9 : ℝ) ≤ 1000 / 27 * 0.6 := by norm_num
    _ ≤ d / (18 * Real.sqrt 2) * Real.sqrt (Real.pi / 8) :=
        mul_le_mul hd27 hsp (by norm_num) hnn

theorem winProbOf_ge_95 (m o : ℝ) (h : 1000 ≤ m - o) : 95 ≤ winProbOf m o := by
  have hx := winprob_scale_ge (m - o) h
  have ht := tanh_ge_of_nine_le _ hx
  show 95 ≤ 0.5 * (1 + Real.tanh ((m - o) / (18 * Real.sqrt 2) *
    Real.sqrt (Real.pi / 8))) * 100
  nlinarith

theorem winProbOf_symm (m o : ℝ) : winProbOf o m = 100 - winProbOf m o := by
  show 0.5 * (1 + Real.tanh ((o - m) / (18 * Real.sqrt 2) * Real.sqrt (Real.pi / 8))) * 100 =
    100 - 0.5 * (1 + Real.tanh ((m - o) / (18 * Real.sqrt 2) * Real.sqrt (Real.pi / 8))) * 100
  rw [show (o - m) / (18 * Real.sqrt 2) * Real.sqrt (Real.pi / 8) =
    -((m - o) / (18 * Real.sqrt 2) * Real.sqrt (Real.pi / 8)) from by ring]
  rw [Real.tanh_neg]
  ring

theorem winProbOf_le_5 (m o : ℝ) (h : 1000 ≤ o - m) : winProbOf m o ≤ 5 := by
  have h95 := winProbOf_ge_95 o m h
  have hsym := winProbOf_symm o m
  linarith

/-- C3: the win probability is `0.5 * (1 + tanh(z * sqrt(pi/8))) * 100`
with `z` the starter projected-point differential over `18 * sqrt 2`;
equal projections give exactly 50; the displayed clamp stays in [5,95],
reaching exactly 95 for a large positive differential and exactly 5 for a
large negative one. -/
theorem C3_win_probability (r1 r2 : List NormalizedPlayer) :
    winProbability r1 r2 =
      0.5 * (1 + Real.tanh ((((starterProjectedTotal r1 : ℚ) : ℝ) -
        ((starterProjectedTotal r2 : ℚ) : ℝ)) / (18 * Real.sqrt 2) *
        Real.sqrt (Real.pi / 8))) * 100 ∧
    (starterProjectedTotal r1 = starterProjectedTotal r2 → winProbability r1 r2 = 50) ∧
    (5 ≤ clampedWinProb (winProbability r1 r2) ∧
      clampedWinProb (winProbability r1 r2) ≤ 95) ∧
    (∀ m o : ℝ, 1000 ≤ m - o → clampedWinProb (winProbOf m o) = 95) ∧
    (∀ m o : ℝ, 1000 ≤ o - m → clampedWinProb (winProbOf m o) = 5) := by
  refine ⟨rfl, ?_, ⟨?_, ?_⟩, ?_, ?_⟩
  · intro h
    show 0.5 * (1 + Real.tanh ((((starterProjectedTotal r1 : ℚ) : ℝ) -
      ((starterProjectedTotal r2 : ℚ) : ℝ)) / (18 * Real.sqrt 2) *
      Real.sqrt (Real.pi / 8))) * 100 = 50
    rw [h, sub_self, zero_div, zero_mul, Real.tanh_zero]
    norm_num
  · exact le_min (le_max_right _ _) (by norm_num)
  · exact min_le_right _ _
  · intro m o h
    have h95 := winProbOf_ge_95 m o h
    unfold clampedWinProb
    rw [max_eq_left (by linarith), min_eq_right (by linarith)]
  · intro m o h
    have h5 := winProbOf_le_5 m o h
    unfold clampedWinProb
    rw [max_eq_right h5, min_eq_left (by norm_num)]

/-- Witness for C3: empty rosters tie at exactly 50%, and differentials
of ±1000 points pin the displayed clamp at 95% and 5%. -/
theorem C3_witness :
    winProbability [] [] = 50 ∧
    clampedWinProb (winProbOf 1000 0) = 95 ∧
    clampedWinProb (winProbOf 0 1000) = 5 :=
  ⟨(C3_win_probability [] []).2.1 rfl,
   (C3_win_probability [] []).2.2.2.1 1000 0 (by norm_num),
   (C3_win_probability [] []).2.2.2.2 0 1000 (by norm_num)⟩

/-- Witness for C4 at concrete values (value 10 on both sides). -/
theorem C4_witness :
    (addValue 1 (normalizeEntry {})).value =
      0.6 * (normalizeEntry {}).projectedPoints +
        0.4 * ((normalizeEntry {}).totalPoints / ((1 : Nat) : ℚ)) ∧
    tradeFairness 10 10 = 1 ∧
    (c4Sugg.fairness = tradeFairness c4Player.value c4Player.value ∧
      tradeFairness c4Player.value c4Player.value > 0.65 ∧
      c4Player.value > 4 ∧ c4Player.value > 4) :=
  ⟨C4_value_fairness_gate.1 1 (normalizeEntry {}) (by norm_num),
   C4_value_fairness_gate.2.1 10 (by norm_num),
   C4_value_fairness_gate.2.2 2 "Team 2" zeroStrength zeroStrength c4Player c4Player c4Sugg
     (by norm_num [pairSuggestion, tradeFairness, zeroStrength, c4Player, c4Sugg])⟩

/-- Witness for C1 at the fully absent entry. -/
theorem C1_witness :
    (normalizeEntry {}).playerName = "Empty Slot" ∧
    (normalizeEntry {}).playerName ≠ "" ∧
    (normalizeEntry {}).position ∈ allowedPositions ∧
    (normalizeEntry {}).totalPoints = 0 ∧
    (normalizeEntry {}).projectedPoints = 0 :=
  ⟨(C1_normalization_total {}).2.1 rfl,
   (C1_normalization_total {}).1,
   (C1_normalization_total {}).2.2.1,
   (C1_normalization_total {}).2.2.2.1 rfl rfl rfl rfl,
   (C1_normalization_total {}).2.2.2.2 rfl rfl rfl rfl rfl rfl⟩

